import Mathlib

/-!
Shallow embedding of the playback-coordination engine in
`src/music_player.rs` of the dmp-core repository, together with proofs of
the specified properties.

Modelling conventions:
* `chrono::Duration` values are integer nanosecond counts (`Int`); the
  library stores signed 64-bit-ranged quantities and all durations handled
  here come from `u64` nanosecond counts cast to `i64`, or from
  `std::time::Duration` conversions, so unbounded `Int` with explicit
  truncation at the `as u64` cast is faithful.
* `f64` volume values are modelled as `Rat`.  The only operation the code
  performs on volumes is `f64::clamp(0.0, 1.0)`, which compares and
  selects and never rounds, so the rational model is exact on every
  non-NaN float.
* The GStreamer pipeline is the environment: commands issued to it
  (property sets, state changes, seeks) are recorded as a trace, and its
  fallible answers (seek success, state-change success, position and
  duration queries) are oracle parameters of each operation.
* Rust panics (`unwrap` on `Err`, `clamp` with `min > max`, the cue-seek
  deadline `panic!`) are modelled as distinguished error outcomes, kept
  separate from `Result::Err` returns.
-/

namespace DmpCore

/-- `Duration::milliseconds 250` in nanoseconds, the near-end threshold
(all `chrono::Duration` values are embedded as `Int` nanoseconds). -/
def millis250 : Int := 250000000

/-- The raw GStreamer pipeline states (`gst::State`). -/
inductive GstState
  | VoidPending
  | Null
  | Ready
  | Paused
  | Playing
deriving DecidableEq

/-- `PlayerState` from `music_player.rs` (the `Buffering` payload is a
percentage `u8`, modelled as `Nat`). -/
inductive PlayerState
  | Playing
  | Paused
  | Ready
  | Buffering (pct : Nat)
  | Null
  | VoidPending
deriving DecidableEq

/-- `impl From<gst::State> for PlayerState` (lines 36-46). -/
def PlayerState.fromGst : GstState → PlayerState
  | .VoidPending => .VoidPending
  | .Playing => .Playing
  | .Paused => .Paused
  | .Ready => .Ready
  | .Null => .Null

/-- `impl TryInto<gst::State> for PlayerState` (lines 48-61): every
variant maps back to its pipeline state except `Buffering`, which yields
`Err` (modelled `none`). -/
def PlayerState.tryIntoGst : PlayerState → Option GstState
  | .VoidPending => some .VoidPending
  | .Playing => some .Playing
  | .Paused => some .Paused
  | .Ready => some .Ready
  | .Null => some .Null
  | .Buffering _ => none

/-- Lifecycle events (`PlayerCmd`), sent from the monitor to the caller. -/
inductive PlayerCmd
  | Play
  | Pause
  | Eos
  | AboutToFinish
deriving DecidableEq

/-- Playback phases (`PlaybackStats`), sent from the facade to the
position monitor. -/
inductive PlaybackStats
  | Idle
  | Switching
  | Playing (start : Int) (end_ : Int)
  | Finished
deriving DecidableEq

/-- The media locator (`URI` from the excluded `music_storage` layer).
Modelled from the spec: a Locator is either a plain resource URI or a
cue-bounded URI carrying start/end duration offsets; `set_source` in
`music_player.rs` only matches on the `Cue {start, end, ..}` shape. -/
inductive URI
  | plain
  | cue (start : Int) (end_ : Int)
deriving DecidableEq

/-- The `Player` struct fields the claims concern: stored volume, the
cue window `start`/`end`, the paused flag, the shared Position Cell
contents, and the current source. -/
structure Player where
  source : Option URI
  volume : Rat
  start : Option Int
  end_ : Option Int
  paused : Bool
  position : Option Int
deriving DecidableEq

/-- The `Player` produced by `Player::new` (lines 242-253): volume `1.0`,
no source, no window, position cell empty. -/
def Player.mk0 : Player :=
  { source := none, volume := 1, start := none, end_ := none,
    paused := false, position := none }

/-- Commands issued to the pipeline element.  `seekSimple` carries the
flush flag and the `ClockTime` value in microseconds as passed to
`ClockTime::from_useconds`. -/
inductive PipelineCmd
  | setVolume (v : Rat)
  | seekSimple (flush : Bool) (clock : Nat)
  | setState (s : GstState)
deriving DecidableEq

/-- Effects of a facade operation: a message on the phase channel, the
`uri` property set, or a pipeline command. -/
inductive Effect
  | phaseSend (s : PlaybackStats)
  | setUri
  | pipe (c : PipelineCmd)
deriving DecidableEq

/-- `Ord::clamp` body once the `min ≤ max` assertion holds. -/
def clampVal (x lo hi : Int) : Int :=
  if x < lo then lo else if x > hi then hi else x

/-- Rust `Ord::clamp`: panics (here `none`) when `min > max`. -/
def rustClamp (x lo hi : Int) : Option Int :=
  if lo > hi then none else some (clampVal x lo hi)

/-- `chrono::Duration::num_microseconds`: whole microseconds of the
nanosecond count.  chrono stores `secs` (signed) plus a nonnegative
sub-second nanosecond field, so the whole-microsecond count is the floor
division by `1000`.  (The `i64` overflow returning `None` cannot occur
for values obtained from `u64`-nanosecond pipeline positions.) -/
def numMicroseconds (d : Int) : Int := Int.fdiv d 1000

/-- The Rust `as u64` cast of an `i64` value: reduction modulo `2^64`. -/
def asU64 (x : Int) : Nat := (x % ((2 : Int) ^ 64)).toNat

instance {ε α : Type} [DecidableEq ε] [DecidableEq α] : DecidableEq (Except ε α) :=
fun a b =>
  match a, b with
  | .ok a, .ok b =>
    if h : a = b then .isTrue (by rw [h]) else .isFalse (by simp [h])
  | .error a, .error b =>
    if h : a = b then .isTrue (by rw [h]) else .isFalse (by simp [h])
  | .ok _, .error _ => .isFalse (by simp)
  | .error _, .ok _ => .isFalse (by simp)

/-- Errors out of the seek operations.  `noStart`/`noEnd`/`noPosition`
model the boxed string errors, `seekFailed` a `glib::BoolError` from
`seek_simple`, and `panicked` a Rust panic (the `clamp` assertion). -/
inductive SeekError
  | noStart
  | noEnd
  | noPosition
  | seekFailed
  | panicked
deriving DecidableEq

/-- Result of a seek: the returned `Result` plus the pipeline commands
issued along the way (the `Player` fields themselves are untouched). -/
structure SeekOutcome where
  result : Except SeekError Unit
  cmds : List PipelineCmd
deriving DecidableEq

/-- `Player::seek_to` (lines 433-458).  `seekOk` is the pipeline's answer
to `seek_simple`.  Note that on a failed `seek_simple` the `?` operator
returns before the stored volume is restored. -/
def seek_to (p : Player) (seekOk : Bool) (target_pos : Int) : SeekOutcome :=
  match p.start with
  | none => { result := .error .noStart, cmds := [] }
  | some start =>
    match p.end_ with
    | none => { result := .error .noEnd, cmds := [] }
    | some end_ =>
      let adjusted_target := target_pos + start
      match rustClamp adjusted_target start end_ with
      | none => { result := .error .panicked, cmds := [] }
      | some clamped_target =>
        let seek_pos_clock := asU64 (numMicroseconds clamped_target)
        if seekOk then
          { result := .ok (),
            cmds := [.setVolume 0, .seekSimple true seek_pos_clock,
                     .setVolume p.volume] }
        else
          { result := .error .seekFailed,
            cmds := [.setVolume 0, .seekSimple true seek_pos_clock] }

/-- `Player::seek_by` (lines 421-430): requires a known position in the
Position Cell, then delegates to `seek_to` at `position + seek_amount`. -/
def seek_by (p : Player) (seekOk : Bool) (seek_amount : Int) : SeekOutcome :=
  match p.position with
  | none => { result := .error .noPosition, cmds := [] }
  | some time_pos => seek_to p seekOk (time_pos + seek_amount)

/-- `f64::clamp` on the rational model (order-only, hence exact). -/
def clampF (v lo hi : Rat) : Rat :=
  if v < lo then lo else if v > hi then hi else v

/-- `Player::set_volume` (lines 351-354): stores the clamped volume and
forwards it to the pipeline via `set_gstreamer_volume`. -/
def set_volume (p : Player) (volume : Rat) : Player × List PipelineCmd :=
  let vol := clampF volume 0 1
  ({ p with volume := vol }, [.setVolume vol])

/-- `Player::volume` (lines 363-365): returns the stored volume. -/
def volumeQuery (p : Player) : Rat := p.volume

/-- `Player::position` (lines 400-402): reads the shared Position Cell. -/
def positionQuery (p : Player) : Option Int := p.position

/-- `Player::duration` (lines 405-411): `end - start` when both are set,
otherwise the raw pipeline duration query (an oracle input here). -/
def durationQuery (p : Player) (raw_duration : Option Int) : Option Int :=
  match p.end_, p.start with
  | some e, some s => some (e - s)
  | _, _ => raw_duration

/-- One iteration outcome of the position-monitor loop body
(lines 157-184): lifecycle events attempted on the channel, whether the
pipeline was forced to `Ready`, the value written to the Position Cell,
and whether the loop exits. -/
structure IterResult where
  events : List PlayerCmd
  forcedReady : Bool
  cellWrite : Option Int
  exits : Bool
deriving DecidableEq

/-- The body of the position-monitor loop (lines 157-184), given the
current phase and the freshly queried raw pipeline position `pos_temp`.
In the `Playing` arm with a known position, the boundary comparisons use
the raw position, and only afterwards is `pos_temp` rebased to
`raw - start`; the final statement of the loop writes `pos_temp` to the
Position Cell (the `Finished` arm writes `none` and breaks instead). -/
def monitorIter (stats : PlaybackStats) (pos_temp : Option Int) : IterResult :=
  match stats, pos_temp with
  | .Playing start end_, some pos =>
    let finish_point := end_ - millis250
    if pos ≥ end_ then
      { events := [.Eos], forcedReady := true,
        cellWrite := some (pos - start), exits := false }
    else if pos ≥ finish_point then
      { events := [.AboutToFinish], forcedReady := false,
        cellWrite := some (pos - start), exits := false }
    else
      { events := [], forcedReady := false,
        cellWrite := some (pos - start), exits := false }
  | .Finished, _ =>
      { events := [], forcedReady := false, cellWrite := none, exits := true }
  | _, p =>
      { events := [], forcedReady := false, cellWrite := p, exits := false }

/-- The `gst::StateChangeError` returned by failed state transitions. -/
inductive StateChangeErr
  | stateChange
deriving DecidableEq

/-- Result of `Player::stop`: the returned `Result`, the updated player
fields, and the effects issued (attempted pipeline state changes and
phase-channel sends, in order). -/
structure StopOutcome where
  result : Except StateChangeErr Unit
  player : Player
  effs : List Effect
deriving DecidableEq

/-- `Player::stop` (lines 476-488): `pause()?`, `ready()?`, then send
`Idle` on the phase channel and clear the Position Cell and the
`start`/`end` window.  `pauseOk`/`readyOk` are the pipeline's answers to
the two state changes; a failing step returns its error at once. -/
def stop (p : Player) (pauseOk readyOk : Bool) : StopOutcome :=
  if pauseOk then
    if readyOk then
      { result := .ok (),
        player := { p with position := none, start := none, end_ := none },
        effs := [.pipe (.setState .Paused), .pipe (.setState .Ready),
                 .phaseSend .Idle] }
    else
      { result := .error .stateChange,
        player := p,
        effs := [.pipe (.setState .Paused), .pipe (.setState .Ready)] }
  else
    { result := .error .stateChange,
      player := p,
      effs := [.pipe (.setState .Paused)] }

/-- The bus message shapes the watch callback (lines 195-233)
distinguishes. -/
inductive MessageView
  | Eos
  | StreamStart
  | Error
  | Other
deriving DecidableEq

/-- Outcome of one bus-watch callback invocation: pipeline commands
issued and lifecycle events emitted. -/
structure BusOutcome where
  cmds : List PipelineCmd
  events : List PlayerCmd
deriving DecidableEq

/-- The bus-watch callback body (lines 195-233): a fault (`Error`)
message bounces the pipeline through `Ready` then `Playing`; `Eos` and
`StreamStart` messages cause no state change (`StreamStart` only prints);
no lifecycle event is ever emitted from the bus watch. -/
def busHandler (msg : MessageView) : BusOutcome :=
  match msg with
  | .Eos => { cmds := [], events := [] }
  | .StreamStart => { cmds := [], events := [] }
  | .Error => { cmds := [.setState .Ready, .setState .Playing], events := [] }
  | .Other => { cmds := [], events := [] }

/-- The cue-seek retry loop of `set_source` (lines 290-297), with the
20 ms wall-clock window abstracted as `fuel`: the number of loop
iterations the deadline admits (the code polls at 1 ms intervals, so the
window admits roughly twenty).  `seekOk i` is the pipeline's answer to
the `i`-th `seek_to` attempt.  Returns the pipeline commands issued on
success, `none` for the deadline `panic!` (or a panic inside `seek_to`). -/
def cueSeekLoop (p : Player) (start : Int) (seekOk : Nat → Bool) :
    Nat → Nat → Option (List Effect)
  | _, 0 => none
  | i, fuel + 1 =>
    let attempt := seek_to p (seekOk i) start
    let effs := attempt.cmds.map Effect.pipe
    match attempt.result with
    | .ok _ => some effs
    | .error .panicked => none
    | .error _ =>
      match cueSeekLoop p start seekOk (i + 1) fuel with
      | none => none
      | some rest => some (effs ++ rest)

/-- The `URI::Cue` branch of `Player::set_source` (lines 265-298): send
`Switching`, set the `uri` property, store the cue window, send
`Playing {start, end}`, start playback (`play().unwrap()`, whose failure
panics — `playOk = false` gives `none`), then run the bounded cue-seek
retry loop, which calls `seek_to` with the absolute cue `start` as its
(track-relative) target.  `none` models a panic; otherwise the updated
player and the ordered effect trace are returned. -/
def set_source_cue (p : Player) (start end_ : Int) (playOk : Bool)
    (seekOk : Nat → Bool) (fuel : Nat) : Option (Player × List Effect) :=
  let p1 := { p with source := some (.cue start end_),
                     start := some start, end_ := some end_ }
  if playOk then
    match cueSeekLoop p1 start seekOk 0 fuel with
    | none => none
    | some effs =>
      some (p1, [.phaseSend .Switching, .setUri,
                 .phaseSend (.Playing start end_),
                 .pipe (.setState .Playing)] ++ effs)
  else none

/-- A player holding the cue window `[10 s, 40 s]` (in nanoseconds), used
to instantiate universally quantified results at a concrete input. -/
def cuePlayer : Player :=
  { Player.mk0 with start := some 10000000000, end_ := some 40000000000 }

/-- A player whose Position Cell holds `5 s`, with a `[0 s, 40 s]`
window, used to instantiate `seek_by` results at a concrete input. -/
def posPlayer : Player :=
  { Player.mk0 with position := some 5000000000,
                    start := some 0, end_ := some 40000000000 }

/-- Claim C9: the pipeline-state conversion round-trips: converting any
raw state to a `PlayerState` and back yields it unchanged; the reverse
conversion fails exactly on `Buffering`, which the forward conversion
never produces. -/
theorem playerState_conversion_roundtrip :
    (∀ s : GstState, (PlayerState.fromGst s).tryIntoGst = some s)
    ∧ (∀ ps : PlayerState, ps.tryIntoGst = none ↔ ∃ n, ps = .Buffering n)
    ∧ (∀ (s : GstState) (n : Nat), PlayerState.fromGst s ≠ .Buffering n) := by
  refine ⟨?_, ?_, ?_⟩
  · intro s; cases s <;> rfl
  · intro ps; cases ps <;> simp [PlayerState.tryIntoGst]
  · intro s n; cases s <;> simp [PlayerState.fromGst]

/-- Instance of C9 at concrete states. -/
theorem playerState_conversion_roundtrip_w :
    (PlayerState.fromGst .Playing).tryIntoGst = some .Playing
    ∧ (PlayerState.tryIntoGst (.Buffering 50) = none
        ↔ ∃ n, PlayerState.Buffering 50 = .Buffering n) :=
  ⟨playerState_conversion_roundtrip.1 .Playing,
   playerState_conversion_roundtrip.2.1 (.Buffering 50)⟩

/-- Claim C6: the bus listener answers a fault notification by setting
the pipeline to `Ready` and then back to `Playing`, and performs no state
change and emits no lifecycle event for an end-of-stream notification. -/
theorem bus_listener_fault_recovery_eos_ignored :
    busHandler .Error
      = { cmds := [.setState .Ready, .setState .Playing], events := [] }
    ∧ busHandler .Eos = { cmds := [], events := [] } :=
  ⟨rfl, rfl⟩

/-- Claim C7: `set_volume v` stores exactly `clamp v 0 1`, forwards that
clamped value to the pipeline, and `volume()` returns the stored value;
the clamp agrees with `max 0 (min v 1)`. -/
theorem set_volume_clamps (p : Player) (v : Rat) :
    (set_volume p v).1.volume = clampF v 0 1
    ∧ (set_volume p v).2 = [.setVolume (clampF v 0 1)]
    ∧ volumeQuery (set_volume p v).1 = clampF v 0 1
    ∧ clampF v 0 1 = max 0 (min v 1) := by
  refine ⟨rfl, rfl, rfl, ?_⟩
  unfold clampF
  split_ifs with h1 h2
  · rw [min_eq_left (by linarith), max_eq_left (by linarith)]
  · rw [min_eq_right (by linarith), max_eq_right (by linarith)]
  · rw [min_eq_left (by linarith), max_eq_right (by linarith)]

/-- Claim C2: in a monitor iteration with phase `Playing {start, end}`
and a known raw position: `Eos` is emitted and the pipeline forced to
`Ready` exactly when the raw position reaches `end`; otherwise
`AboutToFinish` is emitted exactly when it reaches `end - 250 ms`; the
comparisons are against the raw position, and the value written to the
Position Cell is the rebased `raw - start`. -/
theorem monitor_playing_boundaries (s e pos : Int) :
    (monitorIter (.Playing s e) (some pos)).events
        = (if pos ≥ e then [PlayerCmd.Eos]
           else if pos ≥ e - millis250 then [PlayerCmd.AboutToFinish]
           else [])
    ∧ ((monitorIter (.Playing s e) (some pos)).forcedReady = true ↔ pos ≥ e)
    ∧ (monitorIter (.Playing s e) (some pos)).cellWrite = some (pos - s)
    ∧ (monitorIter (.Playing s e) (some pos)).exits = false := by
  by_cases hEos : pos ≥ e
  · simp [monitorIter, hEos]
  · by_cases hNear : pos ≥ e - millis250 <;>
      simp [monitorIter, hEos, hNear]

/-- Instance of C2 at a raw position 100 ms before the window end. -/
theorem monitor_playing_boundaries_w :
    (monitorIter (.Playing 0 30000000000) (some 29900000000)).cellWrite
      = some (29900000000 - 0) :=
  (monitor_playing_boundaries 0 30000000000 29900000000).2.2.1

/-- Claim C3 counterexample: with window `[10 s, 40 s]` and a raw
position of `5 s` (below `start`), the monitor writes the negative
duration `-5 s` to the Position Cell — the raw position is rebased
negative, not clamped or ignored, so the written value is outside
`[0, end - start]`. -/
theorem monitor_rebase_goes_negative :
    (monitorIter (.Playing 10000000000 40000000000) (some 5000000000)).cellWrite
      = some (-5000000000)
    ∧ ((-5000000000 : Int) < 0) := by
  decide

/-- Claim C3 (amended): when the raw position lies inside the window
(`start ≤ raw ≤ end`), the value written to the Position Cell is
`raw - start` and lies in `[0, end - start]`; raw positions below
`start` are rebased negative (see the counterexample). -/
theorem monitor_rebase_in_window (s e pos : Int)
    (h1 : s ≤ pos) (h2 : pos ≤ e) :
    (monitorIter (.Playing s e) (some pos)).cellWrite = some (pos - s)
    ∧ 0 ≤ pos - s ∧ pos - s ≤ e - s := by
  refine ⟨?_, by omega, by omega⟩
  by_cases hEos : pos ≥ e
  · simp [monitorIter, hEos]
  · by_cases hNear : pos ≥ e - millis250 <;>
      simp [monitorIter, hEos, hNear]

/-- Instance of C3 (amended) at window `[10 s, 40 s]`, raw `15 s`. -/
theorem monitor_rebase_in_window_w :
    (monitorIter (.Playing 10000000000 40000000000) (some 15000000000)).cellWrite
      = some (15000000000 - 10000000000)
    ∧ (0 : Int) ≤ 15000000000 - 10000000000
    ∧ (15000000000 - 10000000000 : Int) ≤ 40000000000 - 10000000000 :=
  monitor_rebase_in_window 10000000000 40000000000 15000000000
    (by decide) (by decide)

/-- Claim C8: `seek_by delta` returns an error when the Position Cell is
empty, and otherwise delegates to `seek_to` at target
`position + delta`. -/
theorem seek_by_delegates (p : Player) (seekOk : Bool) (amt : Int) :
    (p.position = none →
      seek_by p seekOk amt = { result := .error .noPosition, cmds := [] })
    ∧ (∀ pos, p.position = some pos →
      seek_by p seekOk amt = seek_to p seekOk (pos + amt)) := by
  constructor
  · intro h; unfold seek_by; rw [h]
  · intro pos h; unfold seek_by; rw [h]

/-- Instance of C8: a fresh player has no position, so `seek_by` fails;
a player with position `5 s` delegates to `seek_to` at `5 s + 3 ns`. -/
theorem seek_by_delegates_w :
    seek_by Player.mk0 true 3 = { result := .error .noPosition, cmds := [] }
    ∧ seek_by posPlayer true 3 = seek_to posPlayer true (5000000000 + 3) :=
  ⟨(seek_by_delegates Player.mk0 true 3).1 rfl,
   (seek_by_delegates posPlayer true 3).2 5000000000 rfl⟩

/-- Claim C5: a successful `stop()` issues pause then `Ready`, announces
`Idle` on the phase channel, clears the Position Cell and the stored
window; afterwards `position()` is `none` and `duration()` falls back to
the raw pipeline duration query. -/
theorem stop_success_spec (p : Player) (raw : Option Int) :
    (stop p true true).result = .ok ()
    ∧ (stop p true true).player
        = { p with position := none, start := none, end_ := none }
    ∧ (stop p true true).effs
        = [.pipe (.setState .Paused), .pipe (.setState .Ready),
           .phaseSend .Idle]
    ∧ positionQuery (stop p true true).player = none
    ∧ durationQuery (stop p true true).player raw = raw :=
  ⟨rfl, rfl, rfl, rfl, rfl⟩

/-- Claim C10: if the pause or the move to `Ready` fails, `stop()`
returns the state-change error with the player fields (Position Cell and
`start`/`end` window) unchanged and no `Idle` announced on the phase
channel. -/
theorem stop_error_atomic (p : Player) (readyOk : Bool) :
    ((stop p false readyOk).result = .error .stateChange
      ∧ (stop p false readyOk).player = p
      ∧ Effect.phaseSend .Idle ∉ (stop p false readyOk).effs)
    ∧ ((stop p true false).result = .error .stateChange
      ∧ (stop p true false).player = p
      ∧ Effect.phaseSend .Idle ∉ (stop p true false).effs) := by
  unfold stop
  simp

/-- Instance of C10: a failing pause on the cue player. -/
theorem stop_error_atomic_w :
    (stop cuePlayer false true).result = .error .stateChange
    ∧ (stop cuePlayer false true).player = cuePlayer
    ∧ Effect.phaseSend .Idle ∉ (stop cuePlayer false true).effs :=
  (stop_error_atomic cuePlayer true).1

/-- Claim C1: with both window bounds set and `start ≤ end`, a
successful `seek_to t` mutes the pipeline, issues a flushing seek at the
clamped absolute position `clamp (t + start) start end` (which lies in
`[start, end]`), and restores the stored volume; with either bound unset
it returns an error having issued no pipeline command. -/
theorem seek_to_spec (p : Player) (t s e : Int)
    (hs : p.start = some s) (he : p.end_ = some e) (hse : s ≤ e) :
    ((seek_to p true t).result = .ok ()
      ∧ (seek_to p true t).cmds
          = [.setVolume 0,
             .seekSimple true (asU64 (numMicroseconds (clampVal (t + s) s e))),
             .setVolume p.volume]
      ∧ s ≤ clampVal (t + s) s e ∧ clampVal (t + s) s e ≤ e)
    ∧ (∀ (q : Player) (ok : Bool) (u : Int),
        q.start = none ∨ q.end_ = none →
        (seek_to q ok u).cmds = []
          ∧ ∃ err, (seek_to q ok u).result = .error err) := by
  constructor
  · have hcl : rustClamp (t + s) s e = some (clampVal (t + s) s e) := by
      unfold rustClamp
      rw [if_neg (by omega)]
    have hb1 : s ≤ clampVal (t + s) s e := by
      unfold clampVal; split_ifs <;> omega
    have hb2 : clampVal (t + s) s e ≤ e := by
      unfold clampVal; split_ifs <;> omega
    simp only [seek_to, hs, he]
    simp only [hcl]
    exact ⟨rfl, rfl, hb1, hb2⟩
  · intro q ok u hqe
    unfold seek_to
    rcases hqe with h | h
    · rw [h]
      exact ⟨rfl, .noStart, rfl⟩
    · cases hq : q.start with
      | none => exact ⟨rfl, .noStart, rfl⟩
      | some s0 =>
        rw [h]
        exact ⟨rfl, .noEnd, rfl⟩

/-- Instance of C1 (the spec scenario): window `[10 s, 40 s]`, target
`35 s`; the adjusted target `45 s` is clamped and the seek issued at the
clamped absolute position. -/
theorem seek_to_spec_w :
    (seek_to cuePlayer true 35000000000).result = .ok ()
    ∧ (seek_to cuePlayer true 35000000000).cmds
        = [.setVolume 0,
           .seekSimple true (asU64 (numMicroseconds
              (clampVal (35000000000 + 10000000000) 10000000000 40000000000))),
           .setVolume cuePlayer.volume] :=
  ⟨(seek_to_spec cuePlayer 35000000000 10000000000 40000000000 rfl rfl
      (by decide)).1.1,
   (seek_to_spec cuePlayer 35000000000 10000000000 40000000000 rfl rfl
      (by decide)).1.2.1⟩

/-- Claim C4 (failing input): on a cue locator with `start = 10 s`,
`end = 40 s` and a pipeline that accepts the first seek, `set_source`
announces `Switching`, sets the window, announces `Playing`, starts
playback — and then issues its flushing seek at `20 000 000 µs`
(absolute `20 s` = `clamp (10 s + 10 s) 10 s 40 s`), not at the cue
start `10 s` (`10 000 000 µs`): the absolute cue start is handed to the
track-relative `seek_to`, which adds `start` again.  When every seek
attempt in the retry window fails, the call panics (`none`) as the
claim states. -/
theorem set_source_cue_failing_input :
    set_source_cue Player.mk0 10000000000 40000000000 true (fun _ => true) 1
      = some ({ Player.mk0 with
                  source := some (.cue 10000000000 40000000000),
                  start := some 10000000000,
                  end_ := some 40000000000 },
          [.phaseSend .Switching, .setUri,
           .phaseSend (.Playing 10000000000 40000000000),
           .pipe (.setState .Playing), .pipe (.setVolume 0),
           .pipe (.seekSimple true 20000000), .pipe (.setVolume 1)])
    ∧ asU64 (numMicroseconds 10000000000) = 10000000
    ∧ (20000000 : Nat) ≠ 10000000
    ∧ set_source_cue Player.mk0 10000000000 40000000000 true (fun _ => false) 20
        = none := by
  decide

end DmpCore
